import Mathlib

/-!
Verification of the atmo_model soil-moisture forecasting pipeline.

Shallow embedding conventions:
* Python floats are embedded as rationals (ℚ); every arithmetic step of the
  source is exact in ℚ, and clamping, means and sums carry over verbatim.
* `datetime` instants are embedded as rational seconds since an arbitrary
  epoch; `timedelta` values are rational seconds.  `timedelta(hours=1)`
  is 3600 and `step.total_seconds() / 3600.0` is `step / 3600`.
* JSON documents are embedded as the inductive `Json`; `json.loads` is the
  executable recursive-descent reader `jsonLoads` below, faithful to the
  strict JSON grammar that Python's json module accepts (objects, arrays,
  strings with escapes, strict numbers, true/false/null, whitespace,
  and rejection of trailing data).
-/

namespace AtmoModel

/-- JSON values as produced by Python's json module (numbers as rationals). -/
inductive Json where
  | jnull : Json
  | jbool : Bool → Json
  | jnum : ℚ → Json
  | jstr : String → Json
  | jarr : List Json → Json
  | jobj : List (String × Json) → Json

/-- Skip JSON whitespace (space, tab, newline, carriage return). -/
def skipWs : List Char → List Char
  | c :: cs => if c = ' ' ∨ c = '\t' ∨ c = '\n' ∨ c = '\r' then skipWs cs else c :: cs
  | [] => []

/-- Value of a hexadecimal digit, if any. -/
def hexVal (c : Char) : Option Nat :=
  if c.isDigit then some (c.toNat - 48)
  else if 'a' ≤ c ∧ c ≤ 'f' then some (c.toNat - 87)
  else if 'A' ≤ c ∧ c ≤ 'F' then some (c.toNat - 55)
  else none

/-- Read the body of a JSON string literal (after the opening quote), returning
the decoded characters and the remaining input after the closing quote. -/
def parseStrBody : List Char → Option (List Char × List Char)
  | [] => none
  | '"' :: rest => some ([], rest)
  | '\\' :: 'u' :: h1 :: h2 :: h3 :: h4 :: rest => do
      let a ← hexVal h1
      let b ← hexVal h2
      let c ← hexVal h3
      let d ← hexVal h4
      let (s, r) ← parseStrBody rest
      pure (Char.ofNat (((a * 16 + b) * 16 + c) * 16 + d) :: s, r)
  | '\\' :: e :: rest => do
      let c ← if e = '"' then some '"'
              else if e = '\\' then some '\\'
              else if e = '/' then some '/'
              else if e = 'b' then some (Char.ofNat 8)
              else if e = 'f' then some (Char.ofNat 12)
              else if e = 'n' then some '\n'
              else if e = 'r' then some '\r'
              else if e = 't' then some '\t'
              else none
      let (s, r) ← parseStrBody rest
      pure (c :: s, r)
  | c :: rest => do
      let (s, r) ← parseStrBody rest
      pure (c :: s, r)

/-- Numeric value of a digit run (most significant first). -/
def digitsToNat (ds : List Char) : Nat :=
  ds.foldl (fun acc c => acc * 10 + (c.toNat - 48)) 0

/-- Read an optional JSON fraction part `.digits`; if the dot is not followed
by a digit it is left unconsumed (the caller will then reject the leftover). -/
def parseFrac (cs : List Char) : ℚ × List Char :=
  match cs with
  | '.' :: rest =>
      let ds := rest.takeWhile Char.isDigit
      if ds = [] then (0, cs)
      else ((digitsToNat ds : ℚ) / (10 : ℚ) ^ ds.length, rest.dropWhile Char.isDigit)
  | _ => (0, cs)

/-- Read an optional JSON exponent part `e[+-]digits`; malformed exponents are
left unconsumed. -/
def parseExpPart (cs : List Char) : ℤ × List Char :=
  match cs with
  | c :: rest =>
      if c = 'e' ∨ c = 'E' then
        let (esign, r1) : ℤ × List Char :=
          match rest with
          | '+' :: r => (1, r)
          | '-' :: r => (-1, r)
          | _ => (1, rest)
        let ds := r1.takeWhile Char.isDigit
        if ds = [] then (0, c :: rest)
        else (esign * (digitsToNat ds : ℤ), r1.dropWhile Char.isDigit)
      else (0, c :: rest)
  | [] => (0, [])

/-- Read a JSON number (strict grammar: optional minus, `0` or a nonzero-led
digit run, optional fraction, optional exponent). -/
def parseJsonNumber (cs : List Char) : Option (ℚ × List Char) :=
  let (neg, cs1) : Bool × List Char :=
    match cs with
    | '-' :: rest => (true, rest)
    | _ => (false, cs)
  let intPart : Option (Nat × List Char) :=
    match cs1 with
    | '0' :: rest => some (0, rest)
    | c :: rest =>
        if c.isDigit then
          some (digitsToNat (c :: rest.takeWhile Char.isDigit), rest.dropWhile Char.isDigit)
        else none
    | [] => none
  match intPart with
  | none => none
  | some (n, r1) =>
      let (frac, r2) := parseFrac r1
      let (ex, r3) := parseExpPart r2
      let mag : ℚ := ((n : ℚ) + frac) * (10 : ℚ) ^ ex
      some (if neg then -mag else mag, r3)

mutual

/-- Read one JSON value.  Fuel bounds the recursion depth; `jsonLoads` supplies
enough fuel for any input of the given length. -/
def parseVal : Nat → List Char → Option (Json × List Char)
  | 0, _ => none
  | fuel + 1, cs =>
      match skipWs cs with
      | [] => none
      | 'n' :: 'u' :: 'l' :: 'l' :: rest => some (.jnull, rest)
      | 't' :: 'r' :: 'u' :: 'e' :: rest => some (.jbool true, rest)
      | 'f' :: 'a' :: 'l' :: 's' :: 'e' :: rest => some (.jbool false, rest)
      | '"' :: rest => (parseStrBody rest).map (fun p => (.jstr (String.mk p.1), p.2))
      | '[' :: rest =>
          match skipWs rest with
          | ']' :: r2 => some (.jarr [], r2)
          | r2 => (parseArrItems fuel r2).map (fun p => (.jarr p.1, p.2))
      | '{' :: rest =>
          match skipWs rest with
          | '}' :: r2 => some (.jobj [], r2)
          | r2 => (parseObjItems fuel r2).map (fun p => (.jobj p.1, p.2))
      | other => (parseJsonNumber other).map (fun p => (.jnum p.1, p.2))

/-- Read the comma-separated items of a nonempty JSON array, consuming the
closing bracket. -/
def parseArrItems : Nat → List Char → Option (List Json × List Char)
  | 0, _ => none
  | fuel + 1, cs => do
      let (v, rest) ← parseVal fuel cs
      match skipWs rest with
      | ']' :: r2 => some ([v], r2)
      | ',' :: r2 => (parseArrItems fuel r2).map (fun p => (v :: p.1, p.2))
      | _ => none

/-- Read the comma-separated members of a nonempty JSON object, consuming the
closing brace. -/
def parseObjItems : Nat → List Char → Option (List (String × Json) × List Char)
  | 0, _ => none
  | fuel + 1, cs =>
      match skipWs cs with
      | '"' :: rest => do
          let (key, r1) ← parseStrBody rest
          match skipWs r1 with
          | ':' :: r2 => do
              let (v, r3) ← parseVal fuel r2
              match skipWs r3 with
              | '}' :: r4 => some ([(String.mk key, v)], r4)
              | ',' :: r4 => (parseObjItems fuel r4).map (fun p => ((String.mk key, v) :: p.1, p.2))
              | _ => none
          | _ => none
      | _ => none

end

/-- Python's `json.loads`: read one JSON document and reject trailing data.
Fuel `2 * length + 2` dominates the recursion depth, which grows only when
at least one character in two steps is consumed. -/
def jsonLoads (s : String) : Option Json :=
  match parseVal (2 * s.length + 2) s.toList with
  | some (j, rest) => if skipWs rest = [] then some j else none
  | none => none

/-- Python's `float(str)` on finite decimal literals: optional surrounding
whitespace, optional sign, `digits[.digits]` or `.digits`, optional exponent.
Infinities and NaN are outside the rational embedding's number domain. -/
def parsePyFloatChars (cs0 : List Char) : Option ℚ :=
  let cs := (((cs0.dropWhile Char.isWhitespace).reverse).dropWhile Char.isWhitespace).reverse
  let (neg, cs1) : Bool × List Char :=
    match cs with
    | '-' :: rest => (true, rest)
    | '+' :: rest => (false, rest)
    | _ => (false, cs)
  let intDs := cs1.takeWhile Char.isDigit
  let r1 := cs1.dropWhile Char.isDigit
  let (fracDs, r2) : List Char × List Char :=
    match r1 with
    | '.' :: rest => (rest.takeWhile Char.isDigit, rest.dropWhile Char.isDigit)
    | _ => ([], r1)
  if intDs = [] ∧ fracDs = [] then none
  else
    let (ex, r3) := parseExpPart r2
    if r3 = [] then
      let mag : ℚ :=
        ((digitsToNat intDs : ℚ) + (digitsToNat fracDs : ℚ) / (10 : ℚ) ^ fracDs.length)
          * (10 : ℚ) ^ ex
      some (if neg then -mag else mag)
    else none

/-- Python's `float` applied to a string. -/
def pyFloatOfString (s : String) : Option ℚ :=
  parsePyFloatChars s.toList

/-- Greedy match of the fallback pattern `[0-9]*\.?[0-9]+` (after any sign) at
the current position, exactly as Python's regex engine backtracks it:
a maximal digit run, then a dot only when at least one digit follows it. -/
def matchNumTail (cs : List Char) : Option (List Char × List Char) :=
  let d1 := cs.takeWhile Char.isDigit
  let r1 := cs.dropWhile Char.isDigit
  if d1 = [] then
    match r1 with
    | '.' :: r2 =>
        let d2 := r2.takeWhile Char.isDigit
        if d2 = [] then none
        else some ('.' :: d2, r2.dropWhile Char.isDigit)
    | _ => none
  else
    match r1 with
    | '.' :: r2 =>
        let d2 := r2.takeWhile Char.isDigit
        if d2 = [] then some (d1, r1)
        else some (d1 ++ '.' :: d2, r2.dropWhile Char.isDigit)
    | _ => some (d1, r1)

/-- Match `[-+]?[0-9]*\.?[0-9]+` at the current position.  A sign is consumed
only when the rest of the pattern matches right after it, as regex
backtracking does (a bare sign never matches). -/
def matchNumHere (cs : List Char) : Option (List Char × List Char) :=
  match cs with
  | c :: rest =>
      if c = '-' ∨ c = '+' then
        (matchNumTail rest).map (fun p => (c :: p.1, p.2))
      else matchNumTail cs
  | [] => none

/-- Scanning loop of `re.findall`: try the pattern at each position, emit the
match and resume after it, else advance one character.  Every match consumes
at least one character, so fuel equal to the input length suffices. -/
def scanNums : Nat → List Char → List String
  | 0, _ => []
  | _, [] => []
  | fuel + 1, c :: rest =>
      match matchNumHere (c :: rest) with
      | some (m, r2) => String.mk m :: scanNums fuel r2
      | none => scanNums fuel rest

/-- Python's `re.findall` for the pattern `[-+]?[0-9]*\.?[0-9]+`, left to
right. -/
def findNumbers (text : String) : List String :=
  scanNums text.length text.toList

/-- Numeric value of one regex match; every string the pattern can produce is
a valid finite float literal, so the default branch is never taken. -/
def floatOfMatch (s : String) : ℚ :=
  match pyFloatOfString s with
  | some q => q
  | none => 0

/-! ## core.py -/

/-- Embedding of `core.AtmosphericState`; the timestamp is rational seconds
since an arbitrary epoch. -/
structure AtmosphericState where
  timestamp : ℚ
  temperature_c : ℚ
  relative_humidity : ℚ
  precipitation_mm : ℚ
  soil_moisture : ℚ
deriving DecidableEq

/-- A normalised weather record, as produced by
`load_numerical_weather_outputs` (all four keys always present). -/
structure Weather where
  temperature_c : ℚ
  relative_humidity : ℚ
  precipitation_mm : ℚ
  hour_index : ℚ
deriving DecidableEq

/-- A raw weather entry: any of the numeric fields may be missing. -/
structure RawWeather where
  temperature_c : Option ℚ
  relative_humidity : Option ℚ
  precipitation_mm : Option ℚ
  hour_index : Option ℚ
deriving DecidableEq

/-- Embedding of `core.load_numerical_weather_outputs`: default missing fields
to 0.0 and `hour_index` to the positional index. -/
def load_numerical_weather_outputs (raw_weather_data : List RawWeather) : List Weather :=
  raw_weather_data.enum.map (fun p =>
    { temperature_c := p.2.temperature_c.getD 0
      relative_humidity := p.2.relative_humidity.getD 0
      precipitation_mm := p.2.precipitation_mm.getD 0
      hour_index := p.2.hour_index.getD (p.1 : ℚ) })

/-- Embedding of `core.DeterministicAtmosphericModel` parameter state (the
Python defaults are evaporation_rate = 0.015, percolation_rate = 0.01). -/
structure DeterministicAtmosphericModel where
  evaporation_rate : ℚ
  percolation_rate : ℚ
deriving DecidableEq

/-- Embedding of `core.evolve_state`; `step` is the time step in seconds
(`timedelta.total_seconds()`), so `hours = step / 3600`. -/
def evolve_state (state : AtmosphericState) (weather : Weather) (step : ℚ)
    (model : DeterministicAtmosphericModel) : AtmosphericState :=
  let hours := step / 3600
  let temperature := weather.temperature_c
  let humidity := weather.relative_humidity
  let precipitation := weather.precipitation_mm
  let evapotranspiration := (1 - humidity / 100) * model.evaporation_rate * hours
  let infiltration := precipitation * model.percolation_rate * hours
  let new_soil_moisture := state.soil_moisture + infiltration - evapotranspiration
  let clamped := max 0 (min 1 new_soil_moisture)
  { timestamp := state.timestamp + step
    temperature_c := temperature
    relative_humidity := humidity
    precipitation_mm := precipitation
    soil_moisture := clamped }

/-- The loop body of `DeterministicAtmosphericModel.predict`: evolve through
the given forcing records with a fixed 1-hour (3600 s) step, feeding each
output state forward. -/
def predictLoop (model : DeterministicAtmosphericModel) (current : AtmosphericState) :
    List Weather → List AtmosphericState
  | [] => []
  | w :: ws =>
      let nextState := evolve_state current w 3600 model
      nextState :: predictLoop model nextState ws

/-- Embedding of `DeterministicAtmosphericModel.predict`: the Python loop
`for hour in range(min(hours_ahead, len(weather_inputs)))` indexing
`weather_inputs[hour]` is iteration over the first `hours_ahead` records. -/
def DeterministicAtmosphericModel.predict (model : DeterministicAtmosphericModel)
    (initial_state : AtmosphericState) (weather_inputs : List Weather)
    (hours_ahead : Nat) : List AtmosphericState :=
  predictLoop model initial_state (weather_inputs.take hours_ahead)

/-- The fixed-shape feature mapping returned by
`export_soil_moisture_features` (exactly these four keys). -/
structure Features where
  mean_temperature : ℚ
  mean_humidity : ℚ
  total_precipitation : ℚ
  final_soil_moisture : ℚ
deriving DecidableEq

/-- Embedding of `core.export_soil_moisture_features`. -/
def export_soil_moisture_features (states : List AtmosphericState) : Features :=
  if h : states = [] then
    { mean_temperature := 0
      mean_humidity := 0
      total_precipitation := 0
      final_soil_moisture := 0 }
  else
    { mean_temperature := (states.map AtmosphericState.temperature_c).sum / (states.length : ℚ)
      mean_humidity := (states.map AtmosphericState.relative_humidity).sum / (states.length : ℚ)
      total_precipitation := (states.map AtmosphericState.precipitation_mm).sum
      final_soil_moisture := (states.getLast h).soil_moisture }

/-- Metadata values stored on a forecast: strings (prompt, issuance time) or
the exported feature mapping. -/
inductive MetaVal where
  | mstr : String → MetaVal
  | mfeat : Features → MetaVal
deriving DecidableEq

/-- Embedding of `core.SoilMoistureForecast`. -/
structure SoilMoistureForecast where
  issued_at : ℚ
  horizon_hours : Nat
  values : List ℚ
  metadata : List (String × MetaVal)
deriving DecidableEq

/-- Python's `range(0, stop, step)` for `step > 0` (the only way the source
calls it). -/
def pyRangeStep (stop step : Nat) : List Nat :=
  (List.range ((stop + step - 1) / step)).map (fun j => j * step)

/-- The loop of `to_daily_averages`: average each chunk, stopping at the first
empty one. -/
def dailyLoop (values : List ℚ) (hpd : Nat) : List Nat → List ℚ
  | [] => []
  | day :: rest =>
      if (values.drop day).take hpd = [] then []
      else (((values.drop day).take hpd).sum / (((values.drop day).take hpd).length : ℚ))
        :: dailyLoop values hpd rest

/-- Embedding of `SoilMoistureForecast.to_daily_averages` (Python default
argument hours_per_day = 24 is passed explicitly at call sites). -/
def SoilMoistureForecast.to_daily_averages (fc : SoilMoistureForecast)
    (hours_per_day : Nat) : List ℚ :=
  dailyLoop fc.values hours_per_day (pyRangeStep fc.horizon_hours hours_per_day)

/-! ## llm_postprocessing.py -/

/-- External-model responses, per the `LLMClient` contract: raw text, a
mapping of JSON-representable values, or a list/tuple of further responses.
Lists and tuples behave identically everywhere except under the generic
string conversion of the empty collection. -/
inductive Resp where
  | rstr : String → Resp
  | rdict : List (String × Json) → Resp
  | rlist : List Resp → Resp
  | rtuple : List Resp → Resp

/-- Embedding of `_coerce_response_text` composed with the subsequent
`json.loads` attempt's input.  A dict is serialised with `json.dumps` and
read back by `json.loads`; that round trip returns the same mapping, so the
embedding hands the structured value (`Sum.inr`) straight to tier 1.  Raw
text, and the generic `str()` rendering of the empty list (`"[]"`) and the
empty tuple (`"()"`), are handed over as text (`Sum.inl`) still to be read. -/
def coerceResponse : Resp → String ⊕ Json
  | .rstr s => .inl s
  | .rdict d => .inr (.jobj d)
  | .rlist (r :: _) => coerceResponse r
  | .rtuple (r :: _) => coerceResponse r
  | .rlist [] => .inl "[]"
  | .rtuple [] => .inl "()"

/-- Python iteration over a parsed JSON value: lists yield their elements,
dicts their keys, strings their characters; numbers, booleans and null are
not `Iterable`. -/
def iterElems : Json → Option (List Json)
  | .jarr xs => some xs
  | .jobj fields => some (fields.map (fun kv => .jstr kv.1))
  | .jstr s => some (s.toList.map (fun c => .jstr (String.mk [c])))
  | _ => none

/-- Python's `float(value)` on a JSON value: numbers pass through, booleans
become 0/1, numeric strings are parsed, everything else raises. -/
def pyFloat : Json → Option ℚ
  | .jnum q => some q
  | .jbool b => some (if b then 1 else 0)
  | .jstr s => pyFloatOfString s
  | _ => none

/-- Candidate-series selection of tier 1: a mapping containing the key
`soil_moisture` contributes that key's value, anything else contributes
itself. -/
def candidateOf (data : Json) : Json :=
  match data with
  | .jobj fields =>
      match fields.lookup "soil_moisture" with
      | some v => v
      | none => .jobj fields
  | other => other

/-- The element loop of tier 1: coerce every element with `float`, failing as
soon as one raises (the partial `result` list is then discarded, exactly as
the raised exception discards it in the source). -/
def mapMFloat : List Json → Option (List ℚ)
  | [] => some []
  | e :: rest =>
      match pyFloat e, mapMFloat rest with
      | some q, some qs => some (q :: qs)
      | _, _ => none

/-- Tier-1 element coercion without the final truncation: iterate the
candidate series and coerce every element, failing on any bad one. -/
def tier1Full (data : Json) : Except String (List ℚ) :=
  match iterElems (candidateOf data) with
  | none => .error "LLM response does not contain an iterable of values"
  | some elems =>
      match mapMFloat elems with
      | none => .error "Invalid soil moisture value in LLM response"
      | some result => .ok result

/-- Tier 1 of `parse_response` for a successfully read JSON document. -/
def tier1Values (horizon : Nat) (data : Json) : Except String (List ℚ) :=
  match tier1Full data with
  | .error e => .error e
  | .ok result => .ok (result.take horizon)

/-- Embedding of `llm_postprocessing.LLMPostProcessor` configuration. -/
structure LLMPostProcessor where
  client : Option (String → Resp)
  horizon_hours : Nat

/-- Embedding of `LLMPostProcessor.parse_response`: coerce the response to
text, try JSON (tier 1), and fall back to regex number extraction (tier 2)
when the text is not a JSON document. -/
def LLMPostProcessor.parse_response (p : LLMPostProcessor) (response : Resp) :
    Except String (List ℚ) :=
  match coerceResponse response with
  | .inr data => tier1Values p.horizon_hours data
  | .inl text =>
      match jsonLoads text with
      | some data => tier1Values p.horizon_hours data
      | none => .ok (((findNumbers text).map floatOfMatch).take p.horizon_hours)

/-- The JSON document obtained from a response when tier 1 applies (either a
structured mapping, or text that reads as JSON). -/
def responseData (response : Resp) : Option Json :=
  match coerceResponse response with
  | .inr data => some data
  | .inl text => jsonLoads text

/-- Round a rational to an integer, ties to even (the rounding of Python's
fixed-point float formatting). -/
def roundHalfEvenZ (q : ℚ) : ℤ :=
  let f := ⌊q⌋
  let r := q - (f : ℚ)
  if r < 1 / 2 then f
  else if r > 1 / 2 then f + 1
  else if f % 2 = 0 then f else f + 1

/-- Python's fixed-point formatting `"%.Nf"` of a rational value. -/
def formatFixed (decimals : Nat) (q : ℚ) : String :=
  let neg := q < 0
  let n : ℤ := roundHalfEvenZ (|q| * (10 : ℚ) ^ decimals)
  let m : Nat := n.toNat
  let ip := m / 10 ^ decimals
  let fp := m % 10 ^ decimals
  let fpDigits := toString fp
  let fpStr := String.mk (List.replicate (decimals - fpDigits.length) '0') ++ fpDigits
  (if neg then "-" else "") ++ toString ip ++ (if decimals = 0 then "" else "." ++ fpStr)

/-- Rendering of an instant (Python stdlib `datetime.isoformat`).  Instants
are embedded as rational seconds, so the embedding renders them canonically;
no claim inspects the rendered text. -/
def isoformatQ (t : ℚ) : String :=
  toString t.num ++ "/" ++ toString t.den

/-- One projected-state line of the prompt. -/
def stateLine (state : AtmosphericState) : String :=
  isoformatQ state.timestamp ++ " | T=" ++ formatFixed 1 state.temperature_c
    ++ "C | RH=" ++ formatFixed 1 state.relative_humidity
    ++ "% | P=" ++ formatFixed 2 state.precipitation_mm
    ++ "mm | SM=" ++ formatFixed 3 state.soil_moisture

/-- The feature summary lines, sorted alphabetically by feature name as
`sorted(features.items())` orders the four fixed keys. -/
def featureLines (features : Features) : String :=
  String.intercalate "\n"
    [ "- final_soil_moisture: " ++ formatFixed 3 features.final_soil_moisture
    , "- mean_humidity: " ++ formatFixed 3 features.mean_humidity
    , "- mean_temperature: " ++ formatFixed 3 features.mean_temperature
    , "- total_precipitation: " ++ formatFixed 3 features.total_precipitation ]

/-- Embedding of `LLMPostProcessor.build_prompt` (which reads nothing from
the processor instance). -/
def build_prompt (initial_state : AtmosphericState)
    (projected_states : List AtmosphericState) (features : Features) : String :=
  "You are an expert hydrologist. Based on the projected atmospheric "
    ++ "states, estimate the soil moisture for the next 72 hours in hourly "
    ++ "increments. Return the results as a JSON object with the key "
    ++ "'soil_moisture' containing a list of 72 decimal numbers between 0 and 1.\n"
    ++ "Initial state: "
    ++ "T=" ++ formatFixed 1 initial_state.temperature_c
    ++ "C, RH=" ++ formatFixed 1 initial_state.relative_humidity
    ++ "%, P=" ++ formatFixed 2 initial_state.precipitation_mm
    ++ "mm, SM=" ++ formatFixed 3 initial_state.soil_moisture ++ ".\n"
    ++ "Projected states (hourly):\n"
    ++ String.intercalate "\n" (projected_states.map stateLine)
    ++ "\nKey summary features:\n"
    ++ featureLines features

/-- Embedding of `LLMPostProcessor.postprocess`.  The second component logs
every prompt passed to the external callable, so "exactly one call with the
constructed prompt" is the statement that the log is that singleton; a missing
client raises before any call, leaving the log empty. -/
def LLMPostProcessor.postprocess (p : LLMPostProcessor)
    (initial_state : AtmosphericState) (projected_states : List AtmosphericState)
    (features : Features) : Except String SoilMoistureForecast × List String :=
  let prompt := build_prompt initial_state projected_states features
  match p.client with
  | none => (.error "No LLM client configured for post-processing", [])
  | some f =>
      let response := f prompt
      match p.parse_response response with
      | .error e => (.error e, [prompt])
      | .ok values =>
          (.ok { issued_at :=
                   match projected_states with
                   | s :: _ => s.timestamp
                   | [] => initial_state.timestamp
                 horizon_hours := p.horizon_hours
                 values := values
                 metadata := [("prompt", .mstr prompt)] }, [prompt])

/-! ## pipeline.py -/

/-- The `while len(extended) < hours_ahead` padding loop of the
orchestrator. -/
def extendLoop (hours_ahead : Nat) (last_value : ℚ) (extended : List ℚ) : List ℚ :=
  if extended.length < hours_ahead then
    extendLoop hours_ahead last_value (extended ++ [last_value])
  else extended
termination_by hours_ahead - extended.length
decreasing_by simp only [List.length_append, List.length_cons, List.length_nil]; omega

/-- Assignment `metadata[key] = value` on the association-list embedding of a
dict: overwrite in place when present, append otherwise. -/
def setKey (md : List (String × MetaVal)) (k : String) (v : MetaVal) :
    List (String × MetaVal) :=
  if (md.lookup k).isSome then
    md.map (fun kv => if kv.1 = k then (k, v) else kv)
  else md ++ [(k, v)]

/-- Embedding of `pipeline.predict_three_day_soil_moisture`.  The `model` and
`post_processor` arguments are the (possibly defaulted) instances; `now` is
the `datetime.utcnow().isoformat()` reading, passed in explicitly because the
embedding is pure. -/
def predict_three_day_soil_moisture (initial_state : AtmosphericState)
    (weather_data : List RawWeather) (model : DeterministicAtmosphericModel)
    (post_processor : LLMPostProcessor) (now : String) :
    Except String SoilMoistureForecast :=
  let normalised_weather := load_numerical_weather_outputs weather_data
  let hours_ahead := post_processor.horizon_hours
  let projected_states := model.predict initial_state normalised_weather hours_ahead
  let features := export_soil_moisture_features projected_states
  match (post_processor.postprocess initial_state projected_states features).1 with
  | .error e => .error e
  | .ok forecast =>
      let values :=
        if forecast.values.length < hours_ahead then
          extendLoop hours_ahead
            (match forecast.values.getLast? with
             | some v => v
             | none => initial_state.soil_moisture)
            forecast.values
        else forecast.values
      let md1 :=
        if (forecast.metadata.lookup "issued_at").isSome then forecast.metadata
        else forecast.metadata ++ [("issued_at", MetaVal.mstr now)]
      .ok { forecast with values := values, metadata := setKey md1 "features" (.mfeat features) }

/-! ## Helper lemmas -/

/-- The evolution loop never drops or adds states: one output per forcing
record. -/
lemma predictLoop_length (model : DeterministicAtmosphericModel)
    (s : AtmosphericState) (ws : List Weather) :
    (predictLoop model s ws).length = ws.length := by
  induction ws generalizing s with
  | nil => rfl
  | cons w ws ih => simp [predictLoop, ih]

/-- Each state of the evolution loop is stamped one hour after the previous,
starting one hour after the seed state. -/
lemma predictLoop_timestamp (model : DeterministicAtmosphericModel)
    (s : AtmosphericState) (ws : List Weather) :
    ∀ (i : Nat) (hi : i < (predictLoop model s ws).length),
      ((predictLoop model s ws).get ⟨i, hi⟩).timestamp
        = s.timestamp + ((i : ℚ) + 1) * 3600 := by
  induction ws generalizing s with
  | nil => intro i hi; simp [predictLoop] at hi
  | cons w ws ih =>
      intro i hi
      cases i with
      | zero =>
          show (evolve_state s w 3600 model).timestamp = _
          simp [evolve_state]
      | succ n =>
          have hn : n < (predictLoop model (evolve_state s w 3600 model) ws).length := by
            simpa [predictLoop] using Nat.lt_of_succ_lt_succ (by simpa [predictLoop] using hi)
          have := ih (evolve_state s w 3600 model) n hn
          show ((predictLoop model (evolve_state s w 3600 model) ws).get ⟨n, hn⟩).timestamp = _
          rw [this]
          show (s.timestamp + 3600) + ((n : ℚ) + 1) * 3600 = _
          push_cast
          ring

/-! ## C1 -/

/-- C1: `evolve_state` returns a state whose soil moisture equals the previous
soil moisture plus precipitation × percolation_rate × hours minus
(1 − humidity/100) × evaporation_rate × hours, clamped to [0,1]; the output
soil moisture lies in [0,1] for every input state, including states whose
soil moisture is outside [0,1]. -/
theorem evolveState_soilMoisture_clamped (state : AtmosphericState)
    (weather : Weather) (step : ℚ) (model : DeterministicAtmosphericModel) :
    (evolve_state state weather step model).soil_moisture
        = max 0 (min 1 (state.soil_moisture
            + weather.precipitation_mm * model.percolation_rate * (step / 3600)
            - (1 - weather.relative_humidity / 100) * model.evaporation_rate * (step / 3600)))
    ∧ 0 ≤ (evolve_state state weather step model).soil_moisture
    ∧ (evolve_state state weather step model).soil_moisture ≤ 1 := by
  refine ⟨rfl, le_max_left _ _, max_le (by norm_num) (min_le_left _ _)⟩

/-! ## C2 -/

/-- C2: the multi-step predictor returns exactly
min(hours_ahead, number of weather records) states, not including the initial
state; when the weather sequence has length ≥ hours_ahead it returns exactly
hours_ahead states, and state i is stamped exactly (i+1) hours (3600 s each)
after the initial state's timestamp, so timestamps ascend one hour apart with
the first one hour after the initial state. -/
theorem predict_length_and_timestamps (model : DeterministicAtmosphericModel)
    (initial_state : AtmosphericState) (weather_inputs : List Weather)
    (hours_ahead : Nat) :
    (model.predict initial_state weather_inputs hours_ahead).length
        = min hours_ahead weather_inputs.length
    ∧ (hours_ahead ≤ weather_inputs.length →
        (model.predict initial_state weather_inputs hours_ahead).length = hours_ahead)
    ∧ ∀ (i : Nat) (hi : i < (model.predict initial_state weather_inputs hours_ahead).length),
        ((model.predict initial_state weather_inputs hours_ahead).get ⟨i, hi⟩).timestamp
          = initial_state.timestamp + ((i : ℚ) + 1) * 3600 := by
  refine ⟨?_, ?_, ?_⟩
  · simp [DeterministicAtmosphericModel.predict, predictLoop_length]
  · intro hle
    simp [DeterministicAtmosphericModel.predict, predictLoop_length, Nat.min_eq_left hle]
  · intro i hi
    exact predictLoop_timestamp model initial_state (weather_inputs.take hours_ahead) i hi

/-- Witness for C2 at a 2-record weather sequence and a 2-hour horizon. -/
theorem predict_length_and_timestamps_witness :
    (({ evaporation_rate := 3/200, percolation_rate := 1/100 } :
        DeterministicAtmosphericModel).predict
        ⟨0, 18, 60, 1/2, 2/5⟩ [⟨20, 50, 0, 0⟩, ⟨21, 55, 1, 1⟩] 2).length = 2
    ∧ ∃ hi : 0 < (({ evaporation_rate := 3/200, percolation_rate := 1/100 } :
          DeterministicAtmosphericModel).predict
          ⟨0, 18, 60, 1/2, 2/5⟩ [⟨20, 50, 0, 0⟩, ⟨21, 55, 1, 1⟩] 2).length,
        ((({ evaporation_rate := 3/200, percolation_rate := 1/100 } :
            DeterministicAtmosphericModel).predict
            ⟨0, 18, 60, 1/2, 2/5⟩ [⟨20, 50, 0, 0⟩, ⟨21, 55, 1, 1⟩] 2).get ⟨0, hi⟩).timestamp
          = (⟨0, 18, 60, 1/2, 2/5⟩ : AtmosphericState).timestamp + (((0 : Nat) : ℚ) + 1) * 3600 := by
  have h := predict_length_and_timestamps
    { evaporation_rate := 3/200, percolation_rate := 1/100 }
    ⟨0, 18, 60, 1/2, 2/5⟩ [⟨20, 50, 0, 0⟩, ⟨21, 55, 1, 1⟩] 2
  have hlen := h.2.1 (by norm_num)
  have hi : 0 < (({ evaporation_rate := 3/200, percolation_rate := 1/100 } :
      DeterministicAtmosphericModel).predict
      ⟨0, 18, 60, 1/2, 2/5⟩ [⟨20, 50, 0, 0⟩, ⟨21, 55, 1, 1⟩] 2).length := by
    rw [hlen]; norm_num
  exact ⟨hlen, hi, h.2.2 0 hi⟩

/-! ## C8 -/

/-- C8: the feature exporter returns all four fields as 0.0 on the empty
sequence without failing, and on a non-empty sequence returns the arithmetic
means of temperature and humidity, the precipitation sum, and the last
state's soil moisture. -/
theorem export_features_empty_and_means :
    export_soil_moisture_features []
        = { mean_temperature := 0, mean_humidity := 0
            total_precipitation := 0, final_soil_moisture := 0 }
    ∧ ∀ (states : List AtmosphericState) (h : states ≠ []),
        export_soil_moisture_features states
          = { mean_temperature :=
                (states.map AtmosphericState.temperature_c).sum / (states.length : ℚ)
              mean_humidity :=
                (states.map AtmosphericState.relative_humidity).sum / (states.length : ℚ)
              total_precipitation := (states.map AtmosphericState.precipitation_mm).sum
              final_soil_moisture := (states.getLast h).soil_moisture } := by
  constructor
  · simp [export_soil_moisture_features]
  · intro states h
    simp [export_soil_moisture_features, h]

/-- Witness for C8 at a singleton state sequence. -/
theorem export_features_empty_and_means_witness :
    export_soil_moisture_features [⟨0, 10, 40, 3, 1/2⟩]
      = { mean_temperature := 10, mean_humidity := 40
          total_precipitation := 3, final_soil_moisture := 1/2 } := by
  have h := export_features_empty_and_means.2 [⟨0, 10, 40, 3, 1/2⟩] (by simp)
  rw [h]
  norm_num

/-- Python's `range(0, stop, step)` as an arithmetic progression. -/
lemma pyRangeStep_eq_range' (stop step : Nat) :
    pyRangeStep stop step = List.range' 0 ((stop + step - 1) / step) step := by
  unfold pyRangeStep
  generalize (stop + step - 1) / step = n
  induction n with
  | zero => simp
  | succ n ih =>
      rw [List.range_succ, List.map_append, ih, List.range'_concat]
      simp [Nat.mul_comm]

/-- Length of the daily-average loop over days s, s+24, …: it stops at the
first day at or past the end of the stored values. -/
lemma dailyLoop_range'_length (values : List ℚ) (n : Nat) :
    ∀ s : Nat, (dailyLoop values 24 (List.range' s n 24)).length
      = min n ((values.length - s + 23) / 24) := by
  induction n with
  | zero => intro s; simp [dailyLoop]
  | succ n ih =>
      intro s
      rw [List.range'_succ]
      simp only [dailyLoop]
      by_cases hs : values.length ≤ s
      · have hdrop : values.drop s = [] := by
          simpa [List.drop_eq_nil_iff] using hs
        rw [hdrop]
        simp
        omega
      · have hchunk : (values.drop s).take 24 ≠ [] := by
          have hlen : ((values.drop s).take 24).length = min 24 (values.length - s) := by
            simp [List.length_take]
          intro hc
          rw [hc] at hlen
          simp at hlen
          omega
        rw [if_neg hchunk]
        simp only [List.length_cons, ih (s + 24)]
        omega

/-- Entry k of the daily-average loop over days s, s+24, … is the mean of the
24-value chunk starting at s + 24k. -/
lemma dailyLoop_range'_get (values : List ℚ) (n : Nat) :
    ∀ (s k : Nat) (hk : k < (dailyLoop values 24 (List.range' s n 24)).length),
      (dailyLoop values 24 (List.range' s n 24)).get ⟨k, hk⟩
        = ((values.drop (s + 24 * k)).take 24).sum
            / (((values.drop (s + 24 * k)).take 24).length : ℚ) := by
  induction n with
  | zero => intro s k hk; simp [dailyLoop] at hk
  | succ n ih =>
      intro s k hk
      by_cases hc : (values.drop s).take 24 = []
      · exfalso
        have heq : dailyLoop values 24 (List.range' s (n + 1) 24) = [] := by
          rw [List.range'_succ]
          simp only [dailyLoop]
          rw [if_pos hc]
        rw [heq] at hk
        simp at hk
      · have heq : dailyLoop values 24 (List.range' s (n + 1) 24)
            = (((values.drop s).take 24).sum / (((values.drop s).take 24).length : ℚ))
              :: dailyLoop values 24 (List.range' (s + 24) n 24) := by
          rw [List.range'_succ]
          simp only [dailyLoop]
          rw [if_neg hc]
        rw [List.get_of_eq heq]
        cases k with
        | zero => simp
        | succ m =>
            have hm : m < (dailyLoop values 24 (List.range' (s + 24) n 24)).length := by
              have hk2 := hk
              rw [heq] at hk2
              simpa using hk2
            show (dailyLoop values 24 (List.range' (s + 24) n 24)).get ⟨m, hm⟩ = _
            rw [ih (s + 24) m hm]
            have harg : s + 24 + 24 * m = s + 24 * (m + 1) := by ring
            rw [harg]

/-! ## C9 -/

/-- C9: with 24 hours per day, `to_daily_averages` produces
min(ceil(horizon_hours/24), ceil(values.length/24)) entries — so when the
values list holds exactly horizon_hours entries there are
ceil(horizon_hours/24) of them, and when it is shorter, iteration stops at
the first empty 24-hour chunk instead of failing — and entry k is the
arithmetic mean of values[24k : 24k+24]. -/
theorem to_daily_averages_chunks (fc : SoilMoistureForecast) :
    (fc.to_daily_averages 24).length
        = min ((fc.horizon_hours + 23) / 24) ((fc.values.length + 23) / 24)
    ∧ (fc.values.length = fc.horizon_hours →
        (fc.to_daily_averages 24).length = (fc.horizon_hours + 23) / 24)
    ∧ ∀ (k : Nat) (hk : k < (fc.to_daily_averages 24).length),
        (fc.to_daily_averages 24).get ⟨k, hk⟩
          = ((fc.values.drop (24 * k)).take 24).sum
              / (((fc.values.drop (24 * k)).take 24).length : ℚ) := by
  have hnum : fc.horizon_hours + 24 - 1 = fc.horizon_hours + 23 := by omega
  have hr : fc.to_daily_averages 24
      = dailyLoop fc.values 24 (List.range' 0 ((fc.horizon_hours + 23) / 24) 24) := by
    unfold SoilMoistureForecast.to_daily_averages
    rw [pyRangeStep_eq_range', hnum]
  refine ⟨?_, ?_, ?_⟩
  · rw [hr, dailyLoop_range'_length]
    omega
  · intro hlen
    rw [hr, dailyLoop_range'_length]
    rw [hlen]
    omega
  · intro k hk
    have hk2 : k < (dailyLoop fc.values 24
        (List.range' 0 ((fc.horizon_hours + 23) / 24) 24)).length := by
      rw [hr] at hk; exact hk
    have hmean := dailyLoop_range'_get fc.values ((fc.horizon_hours + 23) / 24) 0 k hk2
    simp only [Nat.zero_add] at hmean
    exact (List.get_of_eq hr ⟨k, hk⟩).trans hmean

/-- A 72-hour forecast holding only 26 hourly values, for the C9 witness. -/
def fcShortStored : SoilMoistureForecast :=
  { issued_at := 0, horizon_hours := 72, values := List.replicate 24 (1/2) ++ [1, 3],
    metadata := [] }

/-- A 48-hour forecast holding exactly 48 hourly values, for the C9 witness. -/
def fcFullStored : SoilMoistureForecast :=
  { issued_at := 0, horizon_hours := 48, values := List.replicate 48 (1/4),
    metadata := [] }

/-- Witness for C9: a 72-hour horizon with only 26 stored values yields two
daily entries (iteration stops at the first empty chunk), a full 48-value
48-hour forecast yields ceil(48/24) = 2, and entry 1 of the short forecast is
the mean of values[24:48]. -/
theorem to_daily_averages_chunks_witness :
    (fcShortStored.to_daily_averages 24).length = 2
    ∧ (fcFullStored.to_daily_averages 24).length = (fcFullStored.horizon_hours + 23) / 24
    ∧ ∃ hk : 1 < (fcShortStored.to_daily_averages 24).length,
        (fcShortStored.to_daily_averages 24).get ⟨1, hk⟩
          = ((fcShortStored.values.drop (24 * 1)).take 24).sum
              / (((fcShortStored.values.drop (24 * 1)).take 24).length : ℚ) := by
  have h1 := to_daily_averages_chunks fcShortStored
  have h2 := to_daily_averages_chunks fcFullStored
  have hl1 : (fcShortStored.to_daily_averages 24).length = 2 := by
    rw [h1.1]
    simp [fcShortStored]
  have hk : 1 < (fcShortStored.to_daily_averages 24).length := by
    rw [hl1]; norm_num
  exact ⟨hl1, h2.2.1 (by simp [fcFullStored]), hk, h1.2.2 1 hk⟩

/-- Candidate series of `parse_response` before the final truncation, stated
from the spec's reading of the two tiers: the coerced element series of tier
1 when the text reads as JSON, and the regex extraction of tier 2
otherwise. -/
def candidateFloats (response : Resp) : Except String (List ℚ) :=
  match coerceResponse response with
  | .inr data => tier1Full data
  | .inl text =>
      match jsonLoads text with
      | some data => tier1Full data
      | none => .ok ((findNumbers text).map floatOfMatch)

/-- Truncating the tier-1 result commutes with the error handling. -/
lemma tier1Values_eq_map_take (horizon : Nat) (data : Json) :
    tier1Values horizon data = Except.map (List.take horizon) (tier1Full data) := by
  unfold tier1Values
  cases tier1Full data <;> rfl

/-- `parse_response` is the candidate series truncated to the horizon. -/
lemma parse_response_eq_map_take (p : LLMPostProcessor) (r : Resp) :
    p.parse_response r = Except.map (List.take p.horizon_hours) (candidateFloats r) := by
  unfold LLMPostProcessor.parse_response candidateFloats
  cases coerceResponse r with
  | inr data => exact tier1Values_eq_map_take _ _
  | inl text =>
      show (match jsonLoads text with
            | some data => tier1Values p.horizon_hours data
            | none => .ok (((findNumbers text).map floatOfMatch).take p.horizon_hours))
          = Except.map (List.take p.horizon_hours)
              (match jsonLoads text with
               | some data => tier1Full data
               | none => .ok ((findNumbers text).map floatOfMatch))
      cases jsonLoads text with
      | some data => exact tier1Values_eq_map_take _ _
      | none => rfl

/-- A successful parse never exceeds the horizon. -/
lemma parse_response_ok_length (p : LLMPostProcessor) (r : Resp) (vs : List ℚ)
    (h : p.parse_response r = .ok vs) : vs.length ≤ p.horizon_hours := by
  rw [parse_response_eq_map_take] at h
  cases hc : candidateFloats r with
  | error e => rw [hc] at h; exact absurd h (by simp [Except.map])
  | ok full =>
      rw [hc] at h
      simp only [Except.map, Except.ok.injEq] at h
      rw [← h]
      simp [List.length_take]

/-- When the response yields a JSON document, `parse_response` is tier 1 on
that document. -/
lemma parse_response_eq_tier1 (p : LLMPostProcessor) (r : Resp) (data : Json)
    (h : responseData r = some data) :
    p.parse_response r = tier1Values p.horizon_hours data := by
  unfold responseData at h
  unfold LLMPostProcessor.parse_response
  cases hcr : coerceResponse r with
  | inr d =>
      rw [hcr] at h
      have hd : d = data := by simpa using h
      subst hd
      rfl
  | inl text =>
      rw [hcr] at h
      have ht : jsonLoads text = some data := by simpa using h
      show (match jsonLoads text with
            | some data => tier1Values p.horizon_hours data
            | none => .ok (((findNumbers text).map floatOfMatch).take p.horizon_hours))
          = tier1Values p.horizon_hours data
      rw [ht]

/-- Coercing identical numeric elements succeeds elementwise. -/
lemma mapMFloat_replicate (n : Nat) (x : ℚ) :
    mapMFloat (List.replicate n (Json.jnum x)) = some (List.replicate n x) := by
  induction n with
  | zero => rfl
  | succ n ih => simp [List.replicate_succ, mapMFloat, ih, pyFloat]

/-- An element that fails to coerce makes the whole element loop fail. -/
lemma mapMFloat_none (elems : List Json) (e : Json) (he : e ∈ elems)
    (hf : pyFloat e = none) : mapMFloat elems = none := by
  induction elems with
  | nil => cases he
  | cons a l ih =>
      rcases List.mem_cons.mp he with h | h
      · subst h
        simp [mapMFloat, hf]
      · cases ha : pyFloat a <;> simp [mapMFloat, ha, ih h]

/-- Tier 1 on a non-iterable candidate. -/
lemma tier1Full_not_iterable (data : Json)
    (hit : iterElems (candidateOf data) = none) :
    tier1Full data = .error "LLM response does not contain an iterable of values" := by
  unfold tier1Full
  rw [hit]

/-- Tier 1 with a non-coercible element. -/
lemma tier1Full_bad_elem (data : Json) (elems : List Json)
    (hit : iterElems (candidateOf data) = some elems)
    (e : Json) (he : e ∈ elems) (hf : pyFloat e = none) :
    tier1Full data = .error "Invalid soil moisture value in LLM response" := by
  unfold tier1Full
  simp only [hit]
  rw [mapMFloat_none elems e he hf]

/-! ## C4 -/

/-- C4: a mapping response with key soil_moisture holding 100 copies of x
parses to exactly the first horizon_hours copies of x (when the horizon is
at most 100); in both tiers the result is the candidate series truncated to
at most horizon_hours entries — a prefix, never padded. -/
theorem parse_response_takes_at_most_horizon (p : LLMPostProcessor) :
    (∀ x : ℚ, p.horizon_hours ≤ 100 →
        p.parse_response (.rdict [("soil_moisture", .jarr (List.replicate 100 (.jnum x)))])
          = .ok (List.replicate p.horizon_hours x))
    ∧ (∀ r : Resp,
        p.parse_response r = Except.map (List.take p.horizon_hours) (candidateFloats r))
    ∧ ∀ (r : Resp) (vs : List ℚ),
        p.parse_response r = .ok vs → vs.length ≤ p.horizon_hours := by
  refine ⟨?_, parse_response_eq_map_take p, parse_response_ok_length p⟩
  intro x hh
  show tier1Values p.horizon_hours (.jobj [("soil_moisture", .jarr (List.replicate 100 (.jnum x)))])
      = .ok (List.replicate p.horizon_hours x)
  have hcand : candidateOf (.jobj [("soil_moisture", .jarr (List.replicate 100 (.jnum x)))])
      = .jarr (List.replicate 100 (.jnum x)) := rfl
  have hfull : tier1Full (.jobj [("soil_moisture", .jarr (List.replicate 100 (.jnum x)))])
      = .ok (List.replicate 100 x) := by
    unfold tier1Full
    rw [hcand]
    show (match mapMFloat (List.replicate 100 (Json.jnum x)) with
          | none => Except.error "Invalid soil moisture value in LLM response"
          | some result => Except.ok result) = _
    rw [mapMFloat_replicate]
  rw [tier1Values_eq_map_take, hfull]
  show Except.ok ((List.replicate 100 x).take p.horizon_hours) = _
  rw [List.take_replicate, Nat.min_eq_left hh]

/-- Witness for C4 at x = 2/5 and the default horizon 72. -/
theorem parse_response_takes_at_most_horizon_witness :
    LLMPostProcessor.parse_response ⟨none, 72⟩
        (.rdict [("soil_moisture", .jarr (List.replicate 100 (.jnum (2/5))))])
      = .ok (List.replicate 72 (2/5)) :=
  (parse_response_takes_at_most_horizon ⟨none, 72⟩).1 (2/5) (by norm_num)

/-! ## C5 -/

/-- C5: on any text that is not a JSON document, parse_response returns the
substrings matching the decimal-number pattern in left-to-right order, as
numbers; in particular "values: 0.1, 0.2 and 0.33" parses to
[0.1, 0.2, 0.33]. -/
theorem parse_response_regex_fallback (p : LLMPostProcessor) :
    (∀ text : String, jsonLoads text = none →
        p.parse_response (.rstr text)
          = .ok (((findNumbers text).map floatOfMatch).take p.horizon_hours))
    ∧ (3 ≤ p.horizon_hours →
        p.parse_response (.rstr "values: 0.1, 0.2 and 0.33")
          = .ok [1/10, 1/5, 33/100]) := by
  have hgen : ∀ text : String, jsonLoads text = none →
      p.parse_response (.rstr text)
        = .ok (((findNumbers text).map floatOfMatch).take p.horizon_hours) := by
    intro text ht
    unfold LLMPostProcessor.parse_response
    show (match jsonLoads text with
          | some data => tier1Values p.horizon_hours data
          | none => .ok (((findNumbers text).map floatOfMatch).take p.horizon_hours)) = _
    rw [ht]
  refine ⟨hgen, ?_⟩
  intro h3
  rw [hgen "values: 0.1, 0.2 and 0.33" (by rfl)]
  have hfind : findNumbers "values: 0.1, 0.2 and 0.33" = ["0.1", "0.2", "0.33"] := by decide
  have hm1 : floatOfMatch "0.1" = 1/10 := by
    rw [show floatOfMatch "0.1"
        = (((0:ℕ) : ℚ) + ((1:ℕ) : ℚ) / (10 : ℚ) ^ (1:ℕ)) * (10 : ℚ) ^ (0:ℤ) from rfl]
    norm_num
  have hm2 : floatOfMatch "0.2" = 1/5 := by
    rw [show floatOfMatch "0.2"
        = (((0:ℕ) : ℚ) + ((2:ℕ) : ℚ) / (10 : ℚ) ^ (1:ℕ)) * (10 : ℚ) ^ (0:ℤ) from rfl]
    norm_num
  have hm3 : floatOfMatch "0.33" = 33/100 := by
    rw [show floatOfMatch "0.33"
        = (((0:ℕ) : ℚ) + ((33:ℕ) : ℚ) / (10 : ℚ) ^ (2:ℕ)) * (10 : ℚ) ^ (0:ℤ) from rfl]
    norm_num
  rw [hfind]
  rw [show ["0.1", "0.2", "0.33"].map floatOfMatch
      = [floatOfMatch "0.1", floatOfMatch "0.2", floatOfMatch "0.33"] from rfl]
  rw [hm1, hm2, hm3]
  rw [List.take_of_length_le (by simpa using h3)]

/-- Witness for C5 at the default horizon 72. -/
theorem parse_response_regex_fallback_witness :
    LLMPostProcessor.parse_response ⟨none, 72⟩ (.rstr "values: 0.1, 0.2 and 0.33")
      = .ok [1/10, 1/5, 33/100] :=
  (parse_response_regex_fallback ⟨none, 72⟩).2 (by norm_num)

/-! ## C6 -/

/-- C6: in tier 1 a non-iterable candidate series fails with the value error
"LLM response does not contain an iterable of values", and an element that
cannot be coerced to a number fails with the value error
"Invalid soil moisture value in LLM response". -/
theorem parse_response_tier1_value_errors (p : LLMPostProcessor) :
    (∀ (r : Resp) (data : Json), responseData r = some data →
        iterElems (candidateOf data) = none →
        p.parse_response r = .error "LLM response does not contain an iterable of values")
    ∧ ∀ (r : Resp) (data : Json) (elems : List Json), responseData r = some data →
        iterElems (candidateOf data) = some elems →
        (∃ e ∈ elems, pyFloat e = none) →
        p.parse_response r = .error "Invalid soil moisture value in LLM response" := by
  constructor
  · intro r data hd hit
    rw [parse_response_eq_tier1 p r data hd, tier1Values_eq_map_take,
      tier1Full_not_iterable data hit]
    rfl
  · intro r data elems hd hit hbad
    obtain ⟨e, he, hf⟩ := hbad
    rw [parse_response_eq_tier1 p r data hd, tier1Values_eq_map_take,
      tier1Full_bad_elem data elems hit e he hf]
    rfl

/-- Witness for C6: a soil_moisture value that is a bare number is not
iterable, and a null element inside the list cannot be coerced. -/
theorem parse_response_tier1_value_errors_witness :
    LLMPostProcessor.parse_response ⟨none, 72⟩ (.rdict [("soil_moisture", .jnum 5)])
        = .error "LLM response does not contain an iterable of values"
    ∧ LLMPostProcessor.parse_response ⟨none, 72⟩ (.rdict [("soil_moisture", .jarr [.jnull])])
        = .error "Invalid soil moisture value in LLM response" :=
  ⟨(parse_response_tier1_value_errors ⟨none, 72⟩).1 _
      (.jobj [("soil_moisture", .jnum 5)]) rfl rfl,
   (parse_response_tier1_value_errors ⟨none, 72⟩).2 _
      (.jobj [("soil_moisture", .jarr [.jnull])]) [.jnull] rfl rfl
      ⟨.jnull, by simp, rfl⟩⟩

/-! ## C7 -/

/-- C7: with no client configured, postprocess fails with the configuration
error before any model call (the call log stays empty, so no fallback
simulation is substituted); with a client configured, exactly one call is
made, with the constructed prompt. -/
theorem postprocess_single_client_call (p : LLMPostProcessor)
    (initial_state : AtmosphericState) (projected_states : List AtmosphericState)
    (features : Features) :
    (p.client = none →
        (p.postprocess initial_state projected_states features).1
            = .error "No LLM client configured for post-processing"
        ∧ (p.postprocess initial_state projected_states features).2 = [])
    ∧ ∀ f : String → Resp, p.client = some f →
        (p.postprocess initial_state projected_states features).2
          = [build_prompt initial_state projected_states features] := by
  constructor
  · intro hnone
    refine ⟨?_, ?_⟩ <;> simp [LLMPostProcessor.postprocess, hnone]
  · intro f hf
    simp only [LLMPostProcessor.postprocess, hf]
    cases hres : p.parse_response (f (build_prompt initial_state projected_states features)) <;>
      rfl

/-- Witness for C7: a processor with no client, and one with a constant
client. -/
theorem postprocess_single_client_call_witness :
    ((⟨none, 72⟩ : LLMPostProcessor).postprocess ⟨0, 1, 2, 3, 4⟩ [] ⟨0, 0, 0, 0⟩).1
        = .error "No LLM client configured for post-processing"
    ∧ ((⟨none, 72⟩ : LLMPostProcessor).postprocess ⟨0, 1, 2, 3, 4⟩ [] ⟨0, 0, 0, 0⟩).2 = []
    ∧ ((⟨some (fun _ => Resp.rstr "0.5"), 72⟩ : LLMPostProcessor).postprocess
          ⟨0, 1, 2, 3, 4⟩ [] ⟨0, 0, 0, 0⟩).2
        = [build_prompt ⟨0, 1, 2, 3, 4⟩ [] ⟨0, 0, 0, 0⟩] := by
  have h1 := (postprocess_single_client_call ⟨none, 72⟩ ⟨0, 1, 2, 3, 4⟩ [] ⟨0, 0, 0, 0⟩).1 rfl
  have h2 := (postprocess_single_client_call ⟨some (fun _ => Resp.rstr "0.5"), 72⟩
    ⟨0, 1, 2, 3, 4⟩ [] ⟨0, 0, 0, 0⟩).2 (fun _ => Resp.rstr "0.5") rfl
  exact ⟨h1.1, h1.2, h2⟩

/-! ## Pipeline helper lemmas -/

/-- The padding loop appends flat copies of the padding value until the
target length is reached. -/
lemma extendLoop_aux (h : Nat) (last : ℚ) :
    ∀ (n : Nat) (ext : List ℚ), h - ext.length = n →
      extendLoop h last ext = ext ++ List.replicate (h - ext.length) last := by
  intro n
  induction n with
  | zero =>
      intro ext hn
      rw [extendLoop, if_neg (by omega), hn]
      simp
  | succ n ih =>
      intro ext hn
      have hlt : ext.length < h := by omega
      rw [extendLoop, if_pos hlt, ih (ext ++ [last]) (by simp; omega)]
      rw [List.append_assoc]
      congr 1
      have hsplit : h - ext.length = (h - (ext ++ [last]).length) + 1 := by
        simp only [List.length_append, List.length_cons, List.length_nil]
        omega
      rw [hsplit, List.replicate_succ]
      rfl

/-- Closed form of the padding loop. -/
lemma extendLoop_spec (h : Nat) (last : ℚ) (ext : List ℚ) :
    extendLoop h last ext = ext ++ List.replicate (h - ext.length) last :=
  extendLoop_aux h last _ ext rfl

/-- The source's `extended[-1] if extended else fallback` is `getLastD`. -/
lemma lastOr_eq_getLastD (vs : List ℚ) (d : ℚ) :
    (match vs.getLast? with | some v => v | none => d) = vs.getLastD d := by
  cases hv : vs.getLast? with
  | none => simp [List.getLastD_eq_getLast?, hv]
  | some v => simp [List.getLastD_eq_getLast?, hv]

/-- A successful postprocess wraps the parsed values verbatim. -/
lemma postprocess_ok (p : LLMPostProcessor) (i : AtmosphericState)
    (ps : List AtmosphericState) (fe : Features) (f : String → Resp) (vs : List ℚ)
    (hc : p.client = some f)
    (hv : p.parse_response (f (build_prompt i ps fe)) = .ok vs) :
    (p.postprocess i ps fe).1
      = .ok { issued_at := match ps with | s :: _ => s.timestamp | [] => i.timestamp
              horizon_hours := p.horizon_hours
              values := vs
              metadata := [("prompt", MetaVal.mstr (build_prompt i ps fe))] } := by
  simp only [LLMPostProcessor.postprocess, hc, hv]
  cases ps <;> rfl

/-- Core shape of the orchestrator's output: whenever the configured client's
response parses to the series vs, the pipeline succeeds and its values are vs
padded by flat repetition to the horizon. -/
lemma pipeline_ok_values (initial_state : AtmosphericState)
    (weather_data : List RawWeather) (model : DeterministicAtmosphericModel)
    (post_processor : LLMPostProcessor) (now : String)
    (f : String → Resp) (vs : List ℚ)
    (hc : post_processor.client = some f)
    (hv : ∀ prompt, post_processor.parse_response (f prompt) = .ok vs) :
    ∃ fc, predict_three_day_soil_moisture initial_state weather_data model post_processor now
        = .ok fc
      ∧ fc.values = (if vs.length < post_processor.horizon_hours
            then vs ++ List.replicate (post_processor.horizon_hours - vs.length)
                   (vs.getLastD initial_state.soil_moisture)
            else vs) := by
  have hpost := postprocess_ok post_processor initial_state
    (model.predict initial_state (load_numerical_weather_outputs weather_data)
      post_processor.horizon_hours)
    (export_soil_moisture_features
      (model.predict initial_state (load_numerical_weather_outputs weather_data)
        post_processor.horizon_hours))
    f vs hc (hv _)
  simp only [predict_three_day_soil_moisture, hpost]
  refine ⟨_, rfl, ?_⟩
  simp only []
  by_cases hlt : vs.length < post_processor.horizon_hours
  · rw [if_pos hlt, if_pos hlt, extendLoop_spec, lastOr_eq_getLastD]
  · rw [if_neg hlt, if_neg hlt]

/-! ## C3 -/

/-- C3: whenever the pipeline returns, the forecast holds exactly
horizon_hours values: a shorter post-processed series is extended by flat
repetition of its last value (or of the initial state's soil moisture when
empty), it is never truncated here (the original series stays a prefix), and
a series already of full length is returned unchanged. -/
theorem pipeline_pads_to_horizon (initial_state : AtmosphericState)
    (weather_data : List RawWeather) (model : DeterministicAtmosphericModel)
    (post_processor : LLMPostProcessor) (now : String)
    (f : String → Resp) (vs : List ℚ)
    (hc : post_processor.client = some f)
    (hv : ∀ prompt, post_processor.parse_response (f prompt) = .ok vs) :
    ∃ fc, predict_three_day_soil_moisture initial_state weather_data model post_processor now
        = .ok fc
      ∧ fc.values = (if vs.length < post_processor.horizon_hours
            then vs ++ List.replicate (post_processor.horizon_hours - vs.length)
                   (vs.getLastD initial_state.soil_moisture)
            else vs)
      ∧ fc.values.length = post_processor.horizon_hours
      ∧ fc.values.take vs.length = vs
      ∧ (vs.length = post_processor.horizon_hours → fc.values = vs) := by
  have hlen : vs.length ≤ post_processor.horizon_hours :=
    parse_response_ok_length post_processor (f "") vs (hv "")
  obtain ⟨fc, hfc, hvals⟩ :=
    pipeline_ok_values initial_state weather_data model post_processor now f vs hc hv
  refine ⟨fc, hfc, hvals, ?_, ?_, ?_⟩
  · rw [hvals]
    by_cases hlt : vs.length < post_processor.horizon_hours
    · rw [if_pos hlt]
      simp only [List.length_append, List.length_replicate]
      omega
    · rw [if_neg hlt]
      omega
  · rw [hvals]
    by_cases hlt : vs.length < post_processor.horizon_hours
    · rw [if_pos hlt]
      exact List.take_left vs _
    · rw [if_neg hlt]
      exact List.take_length vs
  · intro heq
    rw [hvals, if_neg (by omega)]

/-- The three-value response used in the C3 witness. -/
def respThree : Resp :=
  .rdict [("soil_moisture", .jarr [.jnum (1/10), .jnum (1/5), .jnum (33/100)])]

/-- A post-processor whose client always answers with three values. -/
def procThree : LLMPostProcessor := ⟨some (fun _ => respThree), 72⟩

/-- Witness for C3: a 3-value series for a 72-hour horizon yields 72 entries,
the original three as a prefix and the remaining 69 all equal to the third. -/
theorem pipeline_pads_to_horizon_witness :
    ∃ fc, predict_three_day_soil_moisture ⟨0, 18, 60, 1/2, 2/5⟩ [] ⟨3/200, 1/100⟩
        procThree "now" = .ok fc
      ∧ fc.values.length = 72
      ∧ fc.values.take 3 = [1/10, 1/5, 33/100]
      ∧ fc.values = [1/10, 1/5, 33/100] ++ List.replicate 69 (33/100) := by
  obtain ⟨fc, h1, h2, h3, h4, h5⟩ :=
    pipeline_pads_to_horizon ⟨0, 18, 60, 1/2, 2/5⟩ [] ⟨3/200, 1/100⟩ procThree "now"
      (fun _ => respThree) [1/10, 1/5, 33/100] rfl (fun _ => rfl)
  refine ⟨fc, h1, h3, h4, ?_⟩
  rw [h2]
  norm_num [procThree, List.getLastD]

/-! ## C10 -/

/-- C10 counterexample: an empty tuple response is rendered by the generic
string conversion as "()", not "[]", and "()" is not a JSON document, so
tier-1 parsing does not handle it. -/
theorem empty_tuple_coerces_to_parens :
    coerceResponse (.rtuple []) = Sum.inl "()"
    ∧ "()" ≠ "[]"
    ∧ jsonLoads "()" = none :=
  ⟨rfl, by decide, rfl⟩

/-- C10 (amended): an empty list response is rendered as "[]", which tier-1
JSON parsing turns into an empty candidate series; an empty tuple is rendered
as "()", which fails JSON parsing, and the tier-2 fallback extracts no
numbers; either way the parse result is empty and the pipeline returns a
forecast whose horizon_hours values all equal the initial state's soil
moisture. -/
theorem empty_sequence_response_pipeline (initial_state : AtmosphericState)
    (weather_data : List RawWeather) (model : DeterministicAtmosphericModel)
    (hor : Nat) (now : String) :
    coerceResponse (.rlist []) = Sum.inl "[]"
    ∧ jsonLoads "[]" = some (.jarr [])
    ∧ coerceResponse (.rtuple []) = Sum.inl "()"
    ∧ jsonLoads "()" = none
    ∧ ∀ er ∈ [Resp.rlist [], Resp.rtuple []],
        LLMPostProcessor.parse_response ⟨some (fun _ => er), hor⟩ er = .ok []
        ∧ ∃ fc, predict_three_day_soil_moisture initial_state weather_data model
              ⟨some (fun _ => er), hor⟩ now = .ok fc
            ∧ fc.values = List.replicate hor initial_state.soil_moisture := by
  have hparse1 : ∀ p : LLMPostProcessor, p.parse_response (.rlist []) = .ok [] := by
    intro p
    show tier1Values p.horizon_hours (.jarr []) = .ok []
    rw [tier1Values_eq_map_take, show tier1Full (.jarr []) = .ok [] from rfl]
    show Except.ok (List.take p.horizon_hours []) = _
    rw [List.take_nil]
  have hparse2 : ∀ p : LLMPostProcessor, p.parse_response (.rtuple []) = .ok [] := by
    intro p
    show Except.ok (((findNumbers "()").map floatOfMatch).take p.horizon_hours) = .ok []
    rw [show (findNumbers "()").map floatOfMatch = [] from rfl, List.take_nil]
  have hpipe : ∀ er : Resp,
      (∀ p : LLMPostProcessor, p.parse_response er = .ok []) →
      ∃ fc, predict_three_day_soil_moisture initial_state weather_data model
          ⟨some (fun _ => er), hor⟩ now = .ok fc
        ∧ fc.values = List.replicate hor initial_state.soil_moisture := by
    intro er hp
    obtain ⟨fc, hfc, hvals⟩ := pipeline_ok_values initial_state weather_data model
      ⟨some (fun _ => er), hor⟩ now (fun _ => er) [] rfl (fun _ => hp _)
    refine ⟨fc, hfc, ?_⟩
    rw [hvals]
    cases hor with
    | zero => simp
    | succ n => simp [List.getLastD]
  refine ⟨rfl, rfl, rfl, rfl, ?_⟩
  intro er her
  rcases List.mem_cons.mp her with h | h
  · subst h
    exact ⟨hparse1 _, hpipe _ hparse1⟩
  · rcases List.mem_singleton.mp h with rfl
    exact ⟨hparse2 _, hpipe _ hparse2⟩

/-- Witness for C10's amended theorem at the empty-list response and a
concrete pipeline input. -/
theorem empty_sequence_response_pipeline_witness :
    LLMPostProcessor.parse_response ⟨some (fun _ => Resp.rlist []), 72⟩ (Resp.rlist []) = .ok []
    ∧ ∃ fc, predict_three_day_soil_moisture ⟨0, 18, 60, 1/2, 2/5⟩ [] ⟨3/200, 1/100⟩
          ⟨some (fun _ => Resp.rlist []), 72⟩ "now" = .ok fc
        ∧ fc.values = List.replicate 72
            ((⟨0, 18, 60, 1/2, 2/5⟩ : AtmosphericState).soil_moisture) :=
  (empty_sequence_response_pipeline ⟨0, 18, 60, 1/2, 2/5⟩ [] ⟨3/200, 1/100⟩ 72 "now").2.2.2.2
    (Resp.rlist []) (by simp)

end AtmoModel
